import Mathlib

/-
Verification development for the crew-flight assignment engine of this
repository.  The data model and operations below are shallow embeddings of
the Python source: src/models/flight.py, src/models/flight_assignment.py,
src/models/crew.py, src/repositories/assignment_repository.py,
src/repositories/crew_repository.py, src/app/repositories/assignment_repository.py
and src/services/assignment_service.py.  Timestamps are embedded as integers;
the database tables are embedded as lists inside a DBState record; raised
exceptions become Except errors.  The repository variants in src/repositories
(SQLAlchemy) and src/app/repositories (raw SQL) expose the same operations
under slightly different call signatures; each operation is embedded once,
following the SQL of the variant the service layer actually invokes
(the method names used by src/services/assignment_service.py resolve to
src/app/repositories/assignment_repository.py).
-/

namespace CrewFlight

/-- FlightStatus enum from src/models/flight.py. -/
inductive FlightStatus
  | SCHEDULED
  | DELAYED
  | CANCELLED
  | COMPLETED
deriving DecidableEq, Repr

/-- AssignmentStatus enum from src/models/flight_assignment.py. -/
inductive AssignmentStatus
  | ASSIGNED
  | CONFIRMED
  | CANCELLED
deriving DecidableEq, Repr

/-- CertificationLevel enum from src/models/crew.py (a str-valued Enum:
JUNIOR, SENIOR, CAPTAIN). -/
inductive CertificationLevel
  | JUNIOR
  | SENIOR
  | CAPTAIN
deriving DecidableEq, Repr

/-- Flight row, from src/models/flight.py (fields relevant to the engine). -/
structure Flight where
  id : Nat
  departure_time : Int
  arrival_time : Int
  crew_required : Nat
  status : FlightStatus
deriving DecidableEq, Repr

/-- Crew member row, from src/models/crew.py and src/models/crew_member.py.
The position is recorded by its position_name string (the crew_positions
join only contributes this name in every query the engine runs). -/
structure CrewMember where
  id : Nat
  position_name : String
  experience_years : Nat
  certification_level : CertificationLevel
  is_available : Bool
deriving DecidableEq, Repr

/-- Assignment row, from src/models/flight_assignment.py. -/
structure FlightAssignment where
  id : Nat
  flight_id : Nat
  crew_member_id : Nat
  assigned_by : Nat
  status : AssignmentStatus
  notes : Option String
deriving DecidableEq, Repr

/-- Database state: the airline schema tables touched by the engine.
users is the set of user ids (only referenced through the assigned_by
foreign key).  next_assignment_id models the autoincrement id sequence. -/
structure DBState where
  flights : List Flight
  crew : List CrewMember
  users : List Nat
  assignments : List FlightAssignment
  next_assignment_id : Nat
deriving DecidableEq, Repr

/-- Overlap predicate as the specification words it (section 4.1): the strict
half-open interval test.  Kept separate from the source predicates so the two
can be compared. -/
def spec_overlaps (a_start a_end b_start b_end : Int) : Bool :=
  decide (a_start < b_end) && decide (b_start < a_end)

/-- Flight.is_time_conflict from src/models/flight.py lines 111-117: the
three-clause disjunction with non-strict inequalities. -/
def Flight.is_time_conflict (f : Flight) (other_departure other_arrival : Int) : Bool :=
  (decide (f.departure_time ≤ other_departure) && decide (other_departure ≤ f.arrival_time)) ||
  (decide (f.departure_time ≤ other_arrival) && decide (other_arrival ≤ f.arrival_time)) ||
  (decide (other_departure ≤ f.departure_time) && decide (f.departure_time ≤ other_arrival))

/-- Overlap condition used by the SQL conflict queries
(AssignmentRepository.get_conflicting_assignments lines 136-140,
CrewRepository.get_available_crew lines 102-106, and the inline conflict
query of src/app/repositories/assignment_repository.py lines 440-449):
the flight window (f_dep, f_arr) against the candidate window (dep, arr),
three clauses, all with non-strict comparisons. -/
def sql_overlap (f_dep f_arr dep arr : Int) : Bool :=
  (decide (f_dep ≤ dep) && decide (f_arr ≥ dep)) ||
  (decide (f_dep ≤ arr) && decide (f_arr ≥ arr)) ||
  (decide (f_dep ≥ dep) && decide (f_arr ≤ arr))

/-- Lookup of a flight row by primary key (SELECT ... WHERE id = ...). -/
def findFlight (st : DBState) (fid : Nat) : Option Flight :=
  st.flights.find? fun f => decide (f.id = fid)

/-- Lookup of a crew member row by primary key. -/
def findCrew (st : DBState) (cid : Nat) : Option CrewMember :=
  st.crew.find? fun c => decide (c.id = cid)

/-- AssignmentRepository.get_conflicting_assignments
(src/repositories/assignment_repository.py lines 125-145): assignments of the
crew member with status ASSIGNED whose flight window satisfies the three
clause overlap condition against (departure_time, arrival_time).  The inner
JOIN on flights drops rows whose flight id resolves to no flight. -/
def get_conflicting_assignments (st : DBState) (crew_member_id : Nat)
    (departure_time arrival_time : Int) : List FlightAssignment :=
  st.assignments.filter fun a =>
    decide (a.crew_member_id = crew_member_id) &&
    decide (a.status = AssignmentStatus.ASSIGNED) &&
    (match findFlight st a.flight_id with
     | some f => sql_overlap f.departure_time f.arrival_time departure_time arrival_time
     | none => false)

/-- AssignmentRepository.check_crew_availability
(src/repositories/assignment_repository.py lines 100-123): look up the flight,
then ask whether the crew member has conflicting assignments in its window.
The body of the PostgreSQL function check_crew_availability is not part of
the repository; its semantics are taken from the repository's own conflict
queries (get_conflicting_assignments and the inline exclude-branch SQL of
src/app/repositories/assignment_repository.py lines 433-450), which all test
status = ASSIGNED together with the three-clause non-strict overlap. -/
def check_crew_availability (st : DBState) (crew_member_id fid : Nat) : Bool :=
  match findFlight st fid with
  | none => false
  | some f =>
    (get_conflicting_assignments st crew_member_id f.departure_time f.arrival_time).isEmpty

/-- Result of a storage read that may fail (a psycopg2 / SQLAlchemy error). -/
inductive RepoRead (α : Type)
  | ok (a : α)
  | failure
deriving DecidableEq, Repr

/-- AssignmentService._check_schedule_conflicts
(src/services/assignment_service.py lines 405-423): returns the repository
availability answer, and on any storage exception logs it and returns False
(the except branch at lines 421-423). -/
def check_schedule_conflicts (read : RepoRead Bool) : Bool :=
  match read with
  | RepoRead.ok b => b
  | RepoRead.failure => false

/-- AssignmentRepository.find_by_flight_id
(src/app/repositories/assignment_repository.py lines 69-98): assignments of
the flight with status = ASSIGNED; the inner JOINs on flights, crew_members
and users drop rows whose foreign keys do not resolve. -/
def find_by_flight_id (st : DBState) (fid : Nat) : List FlightAssignment :=
  st.assignments.filter fun a =>
    decide (a.flight_id = fid) &&
    decide (a.status = AssignmentStatus.ASSIGNED) &&
    (findFlight st a.flight_id).isSome &&
    (findCrew st a.crew_member_id).isSome &&
    st.users.contains a.assigned_by

/-- AssignmentRepository.find_by_id
(src/app/repositories/assignment_repository.py lines 41-67): the assignment
row by id, joined against flights, crew_members and users. -/
def find_by_id (st : DBState) (aid : Nat) : Option FlightAssignment :=
  st.assignments.find? fun a =>
    decide (a.id = aid) &&
    (findFlight st a.flight_id).isSome &&
    (findCrew st a.crew_member_id).isSome &&
    st.users.contains a.assigned_by

/-- BaseRepository.get_by_id (src/repositories/base.py): primary-key lookup
without joins. -/
def get_by_id (st : DBState) (aid : Nat) : Option FlightAssignment :=
  st.assignments.find? fun a => decide (a.id = aid)

/-- Crew member ids that are busy in the window, from the subquery of
CrewRepository.get_available_crew (src/repositories/crew_repository.py
lines 99-108): crew ids of ASSIGNED assignments joined to a flight whose
window satisfies the three-clause overlap with the target window. -/
def busy_crew_ids (st : DBState) (departure_time arrival_time : Int) : List Nat :=
  (st.assignments.filter fun a =>
    decide (a.status = AssignmentStatus.ASSIGNED) &&
    (match findFlight st a.flight_id with
     | some f => sql_overlap f.departure_time f.arrival_time departure_time arrival_time
     | none => false)).map fun a => a.crew_member_id

/-- CrewRepository.get_available_crew (src/repositories/crew_repository.py
lines 92-126): crew members whose availability flag is set and whose id is
not in the busy subquery.  The trailing ORDER BY only permutes the result
(the specification, section 4.2, fixes no order for the eligibility filter);
the table order is kept. -/
def get_available_crew (st : DBState) (departure_time arrival_time : Int) : List CrewMember :=
  st.crew.filter fun c =>
    c.is_available && !((busy_crew_ids st departure_time arrival_time).contains c.id)

/-- Modelled from the spec: CrewRepository.find_available_for_flight, called
by AssignmentService.get_available_crew_for_flight (line 308), has no body
anywhere in the repository.  Section 4.2 of the specification describes the
eligibility pool as the crew members whose availability flag is set and who
have no overlapping active assignment, which is exactly the filter of the
in-repository CrewRepository.get_available_crew; that filter is used. -/
def find_available_for_flight (st : DBState) (departure_time arrival_time : Int) :
    List CrewMember :=
  get_available_crew st departure_time arrival_time

/-- Error outcomes of the service and repository layers.  Each constructor
names the raise site: flightNotFound and crewNotFound are the existence
ValueErrors of create_assignment; crewUnavailable the availability flag
ValueError; scheduleConflict the already-assigned-in-this-window ValueError;
crewLimitExceeded the crew cap ValueError; repoUnavailableCheck the repeated
availability Exception inside the repository create; databaseError a
constraint violation surfaced by psycopg2 (unique_crew_flight_assignment or
the assigned_by foreign key); assignmentNotFound and alreadyCancelled the
ValueErrors of cancel_assignment; noAvailableCrew the ValueError of
auto_assign_crew. -/
inductive ServiceError
  | flightNotFound
  | crewNotFound
  | crewUnavailable
  | scheduleConflict
  | crewLimitExceeded
  | repoUnavailableCheck
  | databaseError
  | assignmentNotFound
  | alreadyCancelled
  | noAvailableCrew
deriving DecidableEq, Repr

deriving instance DecidableEq for Except

/-- AssignmentRepository.create_assignment
(src/app/repositories/assignment_repository.py lines 16-39): re-check crew
availability, then INSERT.  The INSERT is subject to the table constraints of
src/models/flight_assignment.py lines 26-36: the unconditional
UniqueConstraint on (crew_member_id, flight_id), and the assigned_by foreign
key into users (ON DELETE RESTRICT); a violation surfaces as a database
error.  On success the row receives the next autoincrement id and is
appended. -/
def repo_create_assignment (st : DBState) (fid cid : Nat) (status : AssignmentStatus)
    (notes : Option String) (assigned_by : Nat) :
    Except ServiceError (DBState × FlightAssignment) :=
  if !(check_crew_availability st cid fid) then
    Except.error ServiceError.repoUnavailableCheck
  else if st.assignments.any (fun a =>
      decide (a.crew_member_id = cid) && decide (a.flight_id = fid)) then
    Except.error ServiceError.databaseError
  else if !(st.users.contains assigned_by) then
    Except.error ServiceError.databaseError
  else
    let a : FlightAssignment :=
      { id := st.next_assignment_id, flight_id := fid, crew_member_id := cid,
        assigned_by := assigned_by, status := status, notes := notes }
    Except.ok
      ({ st with
          assignments := st.assignments ++ [a],
          next_assignment_id := st.next_assignment_id + 1 }, a)

/-- AssignmentService.create_assignment
(src/services/assignment_service.py lines 27-89), with the storage read of the
schedule-conflict check made explicit: read_fails = true means the repository
read inside _check_schedule_conflicts raises.  Checks in source order:
validate (the validator of src/app/utils/validators.py returns an error list
that the service discards, so validation never rejects); flight exists; crew
member exists; availability flag; schedule conflicts via
_check_schedule_conflicts; the crew cap (at most twice crew_required rows
from find_by_flight_id); then the repository insert.  The requested status
defaults to ASSIGNED (line 74). -/
def create_assignment_io (read_fails : Bool) (st : DBState) (fid cid : Nat)
    (status_opt : Option AssignmentStatus) (notes : Option String) (assigned_by : Nat) :
    Except ServiceError (DBState × FlightAssignment) :=
  match findFlight st fid with
  | none => Except.error ServiceError.flightNotFound
  | some flight =>
    match findCrew st cid with
    | none => Except.error ServiceError.crewNotFound
    | some crew =>
      if !crew.is_available then
        Except.error ServiceError.crewUnavailable
      else if !(check_schedule_conflicts
          (if read_fails then RepoRead.failure
           else RepoRead.ok (check_crew_availability st cid fid))) then
        Except.error ServiceError.scheduleConflict
      else if decide ((find_by_flight_id st fid).length ≥ flight.crew_required * 2) then
        Except.error ServiceError.crewLimitExceeded
      else
        repo_create_assignment st fid cid (status_opt.getD AssignmentStatus.ASSIGNED)
          notes assigned_by

/-- AssignmentService.create_assignment with a healthy storage layer. -/
def create_assignment (st : DBState) (fid cid : Nat)
    (status_opt : Option AssignmentStatus) (notes : Option String) (assigned_by : Nat) :
    Except ServiceError (DBState × FlightAssignment) :=
  create_assignment_io false st fid cid status_opt notes assigned_by

/-- AssignmentRepository.update_assignment_status
(src/app/repositories/assignment_repository.py lines 166-188): UPDATE the
status of the rows matching the id. -/
def update_assignment_status (st : DBState) (aid : Nat) (s : AssignmentStatus) : DBState :=
  { st with
      assignments := st.assignments.map fun a =>
        if decide (a.id = aid) then { a with status := s } else a }

/-- AssignmentRepository.update_assignment restricted to a notes payload
(src/app/repositories/assignment_repository.py lines 190-237; with only the
notes field present no availability re-check runs). -/
def update_notes (st : DBState) (aid : Nat) (notes : String) : DBState :=
  { st with
      assignments := st.assignments.map fun a =>
        if decide (a.id = aid) then { a with notes := some notes } else a }

/-- AssignmentService.cancel_assignment
(src/services/assignment_service.py lines 172-206): look the assignment up;
missing row is a ValueError; a row already CANCELLED is the ValueError at
lines 188-189; otherwise the status is updated to CANCELLED and, when a
reason is supplied, the notes are updated to it. -/
def cancel_assignment (st : DBState) (aid : Nat) (reason : Option String) :
    DBState × Except ServiceError Bool :=
  match find_by_id st aid with
  | none => (st, Except.error ServiceError.assignmentNotFound)
  | some a =>
    if decide (a.status = AssignmentStatus.CANCELLED) then
      (st, Except.error ServiceError.alreadyCancelled)
    else
      let st1 := update_assignment_status st aid AssignmentStatus.CANCELLED
      let st2 := match reason with
        | some r => update_notes st1 aid r
        | none => st1
      (st2, Except.ok true)

/-- FlightAssignment.confirm_assignment
(src/models/flight_assignment.py lines 131-135): sets the status to CONFIRMED
with no guard on the current status; notes are replaced when supplied. -/
def FlightAssignment.confirm_assignment (a : FlightAssignment) (notes : Option String) :
    FlightAssignment :=
  { a with
      status := AssignmentStatus.CONFIRMED,
      notes := match notes with
        | some n => some n
        | none => a.notes }

/-- AssignmentRepository.confirm_assignment
(src/repositories/assignment_repository.py lines 147-165): fetch the row by
id, apply the model's unguarded confirm, commit. -/
def repo_confirm_assignment (st : DBState) (aid : Nat) :
    DBState × Option FlightAssignment :=
  match get_by_id st aid with
  | none => (st, none)
  | some a =>
    let a2 := FlightAssignment.confirm_assignment a none
    ({ st with
        assignments := st.assignments.map fun x =>
          if decide (x.id = aid) then a2 else x }, some a2)

/-- Sort key of the auto-assignment ranking
(src/services/assignment_service.py lines 379-382): the tuple
(experience_years, certification_level == CAPTAIN); CertificationLevel in
src/models/crew.py is a str-Enum, so the comparison against the string
singles out CAPTAIN and ranks JUNIOR and SENIOR equally. -/
def py_key (c : CrewMember) : Nat × Nat :=
  (c.experience_years, if decide (c.certification_level = CertificationLevel.CAPTAIN) then 1 else 0)

/-- Lexicographic order on sort keys (Python tuple comparison). -/
def key_le (x y : Nat × Nat) : Bool :=
  decide (x.1 < y.1) || (decide (x.1 = y.1) && decide (x.2 ≤ y.2))

/-- Insertion step of the stable descending sort: the inserted element goes
before the first element whose key does not exceed it, so that among equal
keys the earlier element of the original list stays first, matching Python's
stable list.sort with reverse=True. -/
def insert_desc (c : CrewMember) : List CrewMember → List CrewMember
  | [] => [c]
  | x :: xs =>
    if key_le (py_key x) (py_key c) then c :: x :: xs
    else x :: insert_desc c xs

/-- Stable descending sort by py_key, embedding the candidate ranking of
src/services/assignment_service.py lines 379-382. -/
def sort_desc : List CrewMember → List CrewMember
  | [] => []
  | c :: cs => insert_desc c (sort_desc cs)

/-- AssignmentService.get_available_crew_for_flight
(src/services/assignment_service.py lines 292-327): the available pool for
the flight window, minus crew already holding an ASSIGNED or CONFIRMED
assignment on this very flight. -/
def get_available_crew_for_flight (st : DBState) (fid : Nat) :
    Except ServiceError (List CrewMember) :=
  match findFlight st fid with
  | none => Except.error ServiceError.flightNotFound
  | some f =>
    let avail := find_available_for_flight st f.departure_time f.arrival_time
    let assigned_ids :=
      ((find_by_flight_id st fid).filter fun a =>
        decide (a.status = AssignmentStatus.ASSIGNED) ||
        decide (a.status = AssignmentStatus.CONFIRMED)).map fun a => a.crew_member_id
    Except.ok (avail.filter fun c => !(assigned_ids.contains c.id))

/-- Position priority order of auto_assign_crew
(src/services/assignment_service.py line 368). -/
def priority_positions : List String :=
  ["PILOT", "CO_PILOT", "NAVIGATOR", "RADIO_OPERATOR", "FLIGHT_ATTENDANT"]

/-- Per-position loop of AssignmentService.auto_assign_crew
(src/services/assignment_service.py lines 373-395).  For each position, in
priority order and while crew is still needed, the candidates of that
position are sorted by py_key descending and the single top candidate is
handed to create_assignment with an explicit ASSIGNED status.  A raise inside
create_assignment aborts the whole call; assignments committed by earlier
iterations stay committed, so the state reached so far is returned alongside
the error. -/
def auto_assign_loop (assigned_by fid : Nat) (pool : List CrewMember) :
    List String → Nat → DBState → List FlightAssignment →
    DBState × Except ServiceError (List FlightAssignment)
  | [], _, st, acc => (st, Except.ok acc)
  | _ :: _, 0, st, acc => (st, Except.ok acc)
  | p :: rest, needed + 1, st, acc =>
    match sort_desc (pool.filter fun c => decide (c.position_name = p)) with
    | [] => auto_assign_loop assigned_by fid pool rest (needed + 1) st acc
    | c :: _ =>
      match create_assignment st fid c.id (some AssignmentStatus.ASSIGNED)
          (some ("Автоматично призначено (" ++ p ++ ")")) assigned_by with
      | Except.error e => (st, Except.error e)
      | Except.ok (st', a) =>
        auto_assign_loop assigned_by fid pool rest needed st' (acc ++ [a])

/-- AssignmentService.auto_assign_crew
(src/services/assignment_service.py lines 329-403): missing flight is a
ValueError; a flight whose ASSIGNED/CONFIRMED assignment count already meets
crew_required returns those assignments untouched; an empty availability pool
is the ValueError at lines 356-357; otherwise the per-position loop runs for
the remaining needed count. -/
def auto_assign_crew (st : DBState) (fid assigned_by : Nat) :
    DBState × Except ServiceError (List FlightAssignment) :=
  match findFlight st fid with
  | none => (st, Except.error ServiceError.flightNotFound)
  | some flight =>
    let current := find_by_flight_id st fid
    let active := current.filter fun a =>
      decide (a.status = AssignmentStatus.ASSIGNED) ||
      decide (a.status = AssignmentStatus.CONFIRMED)
    if decide (active.length ≥ flight.crew_required) then
      (st, Except.ok active)
    else
      match get_available_crew_for_flight st fid with
      | Except.error e => (st, Except.error e)
      | Except.ok [] => (st, Except.error ServiceError.noAvailableCrew)
      | Except.ok pool =>
        auto_assign_loop assigned_by fid pool priority_positions
          (flight.crew_required - active.length) st []

/-- Test whether the flight windows of two assignments overlap in the sense
of the specification's strict predicate (section 4.1); assignments whose
flight id does not resolve contribute no overlap. -/
def flights_overlap (st : DBState) (a1 a2 : FlightAssignment) : Bool :=
  match findFlight st a1.flight_id, findFlight st a2.flight_id with
  | some f1, some f2 =>
    spec_overlaps f1.departure_time f1.arrival_time f2.departure_time f2.arrival_time
  | _, _ => false

/-- Double-booking violation between two non-CANCELLED assignments of the
same crew member, as the specification states it (section 8, first bullet). -/
def booking_violation (st : DBState) (a1 a2 : FlightAssignment) : Bool :=
  decide (a1.id ≠ a2.id) && decide (a1.crew_member_id = a2.crew_member_id) &&
  decide (a1.status ≠ AssignmentStatus.CANCELLED) &&
  decide (a2.status ≠ AssignmentStatus.CANCELLED) &&
  flights_overlap st a1 a2

/-- The specification's no-double-booking invariant over all non-CANCELLED
assignments. -/
def no_double_booking (st : DBState) : Bool :=
  st.assignments.all fun a1 => st.assignments.all fun a2 => !(booking_violation st a1 a2)

/-- Double-booking violation restricted to ASSIGNED-status assignments, the
only status the source's conflict queries inspect. -/
def booking_violation_assigned (st : DBState) (a1 a2 : FlightAssignment) : Bool :=
  decide (a1.id ≠ a2.id) && decide (a1.crew_member_id = a2.crew_member_id) &&
  decide (a1.status = AssignmentStatus.ASSIGNED) &&
  decide (a2.status = AssignmentStatus.ASSIGNED) &&
  flights_overlap st a1 a2

/-- No-double-booking invariant restricted to ASSIGNED-status assignments. -/
def no_double_booking_assigned (st : DBState) : Bool :=
  st.assignments.all fun a1 => st.assignments.all fun a2 =>
    !(booking_violation_assigned st a1 a2)

/-- Two assignment rows on the same (flight, crew member) pair. -/
def same_pair (a b : FlightAssignment) : Bool :=
  decide (a.flight_id = b.flight_id) && decide (a.crew_member_id = b.crew_member_id)

/-- At most one assignment row per (flight, crew member) pair, the invariant
maintained by the unconditional unique_crew_flight_assignment constraint of
src/models/flight_assignment.py lines 31-34. -/
def pairs_distinct : List FlightAssignment → Bool
  | [] => true
  | a :: rest => (rest.all fun b => !(same_pair a b)) && pairs_distinct rest

/-- Number of non-CANCELLED assignment rows for a (flight, crew member)
pair. -/
def noncancelled_count (st : DBState) (fid cid : Nat) : Nat :=
  (st.assignments.filter fun a =>
    decide (a.flight_id = fid) && decide (a.crew_member_id = cid) &&
    decide (a.status ≠ AssignmentStatus.CANCELLED)).length

/-- Whether a service call returned a value rather than raising. -/
def is_ok {α : Type} : Except ServiceError α → Bool
  | Except.ok _ => true
  | Except.error _ => false

/-- Payload of a successful assignment-list result, empty on error. -/
def ok_list : Except ServiceError (List FlightAssignment) → List FlightAssignment
  | Except.ok l => l
  | Except.error _ => []

/-- Database state after a create call, the original state on error. -/
def result_db (r : Except ServiceError (DBState × FlightAssignment))
    (fallback : DBState) : DBState :=
  match r with
  | Except.ok (st, _) => st
  | Except.error _ => fallback

/-- State for claim C1: crew member 1 holds a CONFIRMED assignment on flight
1 (window 0-10); flight 2 (window 5-15) overlaps it. -/
def exC1 : DBState :=
  { flights := [⟨1, 0, 10, 4, FlightStatus.SCHEDULED⟩, ⟨2, 5, 15, 4, FlightStatus.SCHEDULED⟩],
    crew := [⟨1, "PILOT", 3, CertificationLevel.JUNIOR, true⟩],
    users := [9],
    assignments := [⟨1, 1, 1, 9, AssignmentStatus.CONFIRMED, none⟩],
    next_assignment_id := 2 }

/-- State for the C1 witness: one flight, one crew member, no assignments. -/
def exC1w : DBState :=
  { flights := [⟨1, 0, 10, 4, FlightStatus.SCHEDULED⟩],
    crew := [⟨1, "PILOT", 3, CertificationLevel.JUNIOR, true⟩],
    users := [9],
    assignments := [],
    next_assignment_id := 1 }

/-- State reached from exC1w by the witnessed create call. -/
def exC1w' : DBState :=
  { flights := [⟨1, 0, 10, 4, FlightStatus.SCHEDULED⟩],
    crew := [⟨1, "PILOT", 3, CertificationLevel.JUNIOR, true⟩],
    users := [9],
    assignments := [⟨1, 1, 1, 9, AssignmentStatus.ASSIGNED, none⟩],
    next_assignment_id := 2 }

/-- Assignment row created by the witnessed create call on exC1w. -/
def exC1a : FlightAssignment :=
  ⟨1, 1, 1, 9, AssignmentStatus.ASSIGNED, none⟩

/-- State for claim C2: crew member 1 is ASSIGNED to flight 1 with window
10-12; the probe window is the touching window 12-14. -/
def exC2 : DBState :=
  { flights := [⟨1, 10, 12, 4, FlightStatus.SCHEDULED⟩],
    crew := [⟨1, "PILOT", 3, CertificationLevel.JUNIOR, true⟩],
    users := [9],
    assignments := [⟨1, 1, 1, 9, AssignmentStatus.ASSIGNED, none⟩],
    next_assignment_id := 2 }

/-- State for claim C3: the only assignment of the pair (flight 1, crew 1)
is CANCELLED. -/
def exC3 : DBState :=
  { flights := [⟨1, 0, 10, 4, FlightStatus.SCHEDULED⟩],
    crew := [⟨1, "PILOT", 3, CertificationLevel.JUNIOR, true⟩],
    users := [9],
    assignments := [⟨1, 1, 1, 9, AssignmentStatus.CANCELLED, none⟩],
    next_assignment_id := 2 }

/-- State for claim C4: assignment 1 is CANCELLED. -/
def exC4 : DBState :=
  { flights := [⟨1, 0, 10, 4, FlightStatus.SCHEDULED⟩],
    crew := [⟨1, "PILOT", 3, CertificationLevel.JUNIOR, true⟩],
    users := [9],
    assignments := [⟨1, 1, 1, 9, AssignmentStatus.CANCELLED, none⟩],
    next_assignment_id := 2 }

/-- State for the C4 witness: assignment 1 is ASSIGNED and cancellable. -/
def exC4w : DBState :=
  { flights := [⟨1, 0, 10, 4, FlightStatus.SCHEDULED⟩],
    crew := [⟨1, "PILOT", 3, CertificationLevel.JUNIOR, true⟩],
    users := [9],
    assignments := [⟨1, 1, 1, 9, AssignmentStatus.ASSIGNED, none⟩],
    next_assignment_id := 2 }

/-- State for claim C5: flight 1 has status CANCELLED, crew member 1 is
available and unconflicted. -/
def exC5 : DBState :=
  { flights := [⟨1, 0, 10, 4, FlightStatus.CANCELLED⟩],
    crew := [⟨1, "PILOT", 3, CertificationLevel.JUNIOR, true⟩],
    users := [9],
    assignments := [],
    next_assignment_id := 1 }

/-- Empty state used by the C5 witness. -/
def exEmpty : DBState :=
  { flights := [], crew := [], users := [9], assignments := [], next_assignment_id := 1 }

/-- State for claim C6: two available pilots, crew 1 a CAPTAIN with 5 years
of experience, crew 2 a SENIOR with 10 years; flight 1 needs one crew
member. -/
def exC6 : DBState :=
  { flights := [⟨1, 0, 10, 1, FlightStatus.SCHEDULED⟩],
    crew := [⟨1, "PILOT", 5, CertificationLevel.CAPTAIN, true⟩,
             ⟨2, "PILOT", 10, CertificationLevel.SENIOR, true⟩],
    users := [9],
    assignments := [],
    next_assignment_id := 1 }

/-- Candidate pool of exC6, used by the C6 witness. -/
def exC6pool : List CrewMember :=
  [⟨1, "PILOT", 5, CertificationLevel.CAPTAIN, true⟩,
   ⟨2, "PILOT", 10, CertificationLevel.SENIOR, true⟩]

/-- State for the C7 counterexample: flight 1 needs two crew members but the
only crew member is flagged unavailable, so the pool is empty. -/
def exC7a : DBState :=
  { flights := [⟨1, 0, 10, 2, FlightStatus.SCHEDULED⟩],
    crew := [⟨1, "PILOT", 5, CertificationLevel.CAPTAIN, false⟩],
    users := [9],
    assignments := [],
    next_assignment_id := 1 }

/-- State for the C7 scenario: flight 1 needs three crew members (two
pilots and an attendant in the claim's reading); one eligible PILOT exists
and no FLIGHT_ATTENDANT. -/
def exC7b : DBState :=
  { flights := [⟨1, 0, 10, 3, FlightStatus.SCHEDULED⟩],
    crew := [⟨1, "PILOT", 5, CertificationLevel.SENIOR, true⟩],
    users := [9],
    assignments := [],
    next_assignment_id := 1 }

/-- State for claim C8: an otherwise fully eligible create request. -/
def exC8 : DBState :=
  { flights := [⟨1, 0, 10, 4, FlightStatus.SCHEDULED⟩],
    crew := [⟨1, "PILOT", 3, CertificationLevel.JUNIOR, true⟩],
    users := [9],
    assignments := [],
    next_assignment_id := 1 }

/-- State for the C9 counterexample: flight 1 requires one crew member and
already carries two CANCELLED assignment rows (crew 2 and 3); crew member 1
is eligible. -/
def exC9 : DBState :=
  { flights := [⟨1, 0, 10, 1, FlightStatus.SCHEDULED⟩],
    crew := [⟨1, "PILOT", 3, CertificationLevel.JUNIOR, true⟩],
    users := [9],
    assignments := [⟨1, 1, 2, 9, AssignmentStatus.CANCELLED, none⟩,
                    ⟨2, 1, 3, 9, AssignmentStatus.CANCELLED, none⟩],
    next_assignment_id := 3 }

/-- State for the C9 witness: flight 1 requires one crew member and carries
two ASSIGNED rows (crew 2 and 3, both resolvable), hitting the cap. -/
def exC9w : DBState :=
  { flights := [⟨1, 0, 100, 1, FlightStatus.SCHEDULED⟩],
    crew := [⟨1, "PILOT", 3, CertificationLevel.JUNIOR, true⟩,
             ⟨2, "PILOT", 1, CertificationLevel.JUNIOR, true⟩,
             ⟨3, "PILOT", 1, CertificationLevel.JUNIOR, true⟩],
    users := [9],
    assignments := [⟨1, 1, 2, 9, AssignmentStatus.ASSIGNED, none⟩,
                    ⟨2, 1, 3, 9, AssignmentStatus.ASSIGNED, none⟩],
    next_assignment_id := 3 }

theorem key_le_refl (x : Nat × Nat) : key_le x x = true := by
  simp [key_le]

theorem key_le_total (x y : Nat × Nat) : key_le x y = true ∨ key_le y x = true := by
  simp [key_le]
  omega

theorem key_le_trans {x y z : Nat × Nat} (h1 : key_le x y = true)
    (h2 : key_le y z = true) : key_le x z = true := by
  simp [key_le] at h1 h2 ⊢
  omega

theorem insert_desc_perm (c : CrewMember) (l : List CrewMember) :
    (insert_desc c l).Perm (c :: l) := by
  induction l with
  | nil => simp [insert_desc]
  | cons x xs ih =>
    unfold insert_desc
    by_cases h : key_le (py_key x) (py_key c) = true
    · rw [if_pos h]
    · rw [if_neg h]
      exact (ih.cons x).trans (List.Perm.swap c x xs)

theorem sort_desc_perm (l : List CrewMember) : (sort_desc l).Perm l := by
  induction l with
  | nil => simp [sort_desc]
  | cons c cs ih =>
    unfold sort_desc
    exact (insert_desc_perm c (sort_desc cs)).trans (ih.cons c)

theorem mem_sort_desc {c : CrewMember} {l : List CrewMember} :
    c ∈ sort_desc l ↔ c ∈ l :=
  (sort_desc_perm l).mem_iff

theorem insert_desc_pairwise {c : CrewMember} {l : List CrewMember}
    (h : l.Pairwise fun a b => key_le (py_key b) (py_key a) = true) :
    (insert_desc c l).Pairwise fun a b => key_le (py_key b) (py_key a) = true := by
  induction l with
  | nil => simp [insert_desc]
  | cons x xs ih =>
    rw [List.pairwise_cons] at h
    obtain ⟨hx, hxs⟩ := h
    unfold insert_desc
    by_cases hk : key_le (py_key x) (py_key c) = true
    · rw [if_pos hk]
      rw [List.pairwise_cons]
      refine ⟨?_, List.pairwise_cons.mpr ⟨hx, hxs⟩⟩
      intro y hy
      rcases List.mem_cons.mp hy with rfl | hy'
      · exact hk
      · exact key_le_trans (hx y hy') hk
    · rw [if_neg hk]
      rw [List.pairwise_cons]
      refine ⟨?_, ih hxs⟩
      intro y hy
      have hy2 := (insert_desc_perm c xs).mem_iff.mp hy
      rcases List.mem_cons.mp hy2 with rfl | hy'
      · rcases key_le_total (py_key x) (py_key y) with h1 | h1
        · exact absurd h1 hk
        · exact h1
      · exact hx y hy'

theorem sort_desc_pairwise (l : List CrewMember) :
    (sort_desc l).Pairwise fun a b => key_le (py_key b) (py_key a) = true := by
  induction l with
  | nil => simp [sort_desc]
  | cons c cs ih =>
    unfold sort_desc
    exact insert_desc_pairwise ih

theorem sort_desc_head_max {l : List CrewMember} {h : CrewMember}
    {t : List CrewMember} (hs : sort_desc l = h :: t) {c : CrewMember}
    (hc : c ∈ l) : key_le (py_key c) (py_key h) = true := by
  have hmem : c ∈ sort_desc l := mem_sort_desc.mpr hc
  rw [hs] at hmem
  rcases List.mem_cons.mp hmem with rfl | hmem'
  · exact key_le_refl _
  · have hp := sort_desc_pairwise l
    rw [hs, List.pairwise_cons] at hp
    exact hp.1 c hmem'

theorem sql_overlap_false {fd fa d r : Int} (h : sql_overlap fd fa d r = false) :
    spec_overlaps fd fa d r = false ∧ spec_overlaps d r fd fa = false := by
  simp [sql_overlap] at h
  simp [spec_overlaps]
  omega

theorem conflicts_spec {st : DBState} {cid : Nat} {dep arr : Int}
    (h : (get_conflicting_assignments st cid dep arr).isEmpty = true) :
    ∀ b ∈ st.assignments, b.crew_member_id = cid →
      b.status = AssignmentStatus.ASSIGNED →
      ∀ fb, findFlight st b.flight_id = some fb →
        sql_overlap fb.departure_time fb.arrival_time dep arr = false := by
  intro b hb hcrew hstat fb hfb
  rw [List.isEmpty_iff] at h
  unfold get_conflicting_assignments at h
  rw [List.filter_eq_nil_iff] at h
  have hnb := h b hb
  simp [hcrew, hstat, hfb] at hnb
  simpa using hnb

theorem create_ok_spec {st : DBState} {fid cid : Nat} {so : Option AssignmentStatus}
    {nts : Option String} {uid : Nat} {st' : DBState} {a : FlightAssignment}
    (h : create_assignment st fid cid so nts uid = Except.ok (st', a)) :
    st'.flights = st.flights ∧ st'.crew = st.crew ∧ st'.users = st.users ∧
    st'.next_assignment_id = st.next_assignment_id + 1 ∧
    st'.assignments = st.assignments ++ [a] ∧
    a.id = st.next_assignment_id ∧ a.flight_id = fid ∧ a.crew_member_id = cid ∧
    a.assigned_by = uid ∧ a.status = so.getD AssignmentStatus.ASSIGNED ∧
    a.notes = nts ∧
    check_crew_availability st cid fid = true ∧
    (∀ b ∈ st.assignments, ¬(b.crew_member_id = cid ∧ b.flight_id = fid)) ∧
    (∃ flight, findFlight st fid = some flight ∧
      (find_by_flight_id st fid).length < flight.crew_required * 2) := by
  unfold create_assignment create_assignment_io repo_create_assignment at h
  cases hf : findFlight st fid <;> rw [hf] at h
  · exact absurd h (by simp)
  case some flight =>
  cases hc : findCrew st cid <;> rw [hc] at h
  · exact absurd h (by simp)
  case some crew =>
  rw [show (if (false : Bool) then RepoRead.failure
        else RepoRead.ok (check_crew_availability st cid fid))
      = RepoRead.ok (check_crew_availability st cid fid) from rfl] at h
  simp only [check_schedule_conflicts] at h
  split at h
  · exact absurd h (by simp)
  case isFalse hav =>
  split at h
  · exact absurd h (by simp)
  case isFalse hconf =>
  split at h
  · exact absurd h (by simp)
  case isFalse hcap =>
  split at h
  · exact absurd h (by simp)
  case isFalse hdup =>
  split at h
  · exact absurd h (by simp)
  case isFalse hfk =>
  simp only [Except.ok.injEq, Prod.mk.injEq] at h
  obtain ⟨hst, ha⟩ := h
  subst hst
  subst ha
  have hconf2 : check_crew_availability st cid fid = true := by
    cases hb : check_crew_availability st cid fid
    · rw [hb] at hconf
      simp at hconf
    · rfl
  refine ⟨rfl, rfl, rfl, rfl, rfl, rfl, rfl, rfl, rfl, rfl, rfl, hconf2, ?_, ?_⟩
  · intro b hb hcon
    apply hdup
    simp only [List.any_eq_true]
    exact ⟨b, hb, by simp [hcon.1, hcon.2]⟩
  · refine ⟨flight, rfl, ?_⟩
    simp only [decide_eq_true_eq] at hcap
    omega

theorem booking_violation_assigned_false_iff (st : DBState) (a1 a2 : FlightAssignment) :
    booking_violation_assigned st a1 a2 = false ↔
      (a1.id ≠ a2.id → a1.crew_member_id = a2.crew_member_id →
       a1.status = AssignmentStatus.ASSIGNED → a2.status = AssignmentStatus.ASSIGNED →
       flights_overlap st a1 a2 = false) := by
  unfold booking_violation_assigned
  by_cases h1 : a1.id = a2.id <;>
    by_cases h2 : a1.crew_member_id = a2.crew_member_id <;>
    by_cases h3 : a1.status = AssignmentStatus.ASSIGNED <;>
    by_cases h4 : a2.status = AssignmentStatus.ASSIGNED <;>
    simp [h1, h2, h3, h4]

theorem ndba_iff (st : DBState) :
    no_double_booking_assigned st = true ↔
      ∀ a1 ∈ st.assignments, ∀ a2 ∈ st.assignments,
        a1.id ≠ a2.id → a1.crew_member_id = a2.crew_member_id →
        a1.status = AssignmentStatus.ASSIGNED → a2.status = AssignmentStatus.ASSIGNED →
        flights_overlap st a1 a2 = false := by
  unfold no_double_booking_assigned
  simp only [List.all_eq_true, Bool.not_eq_true', booking_violation_assigned_false_iff]

theorem flights_overlap_congr {st st' : DBState} (hfl : st'.flights = st.flights)
    (a1 a2 : FlightAssignment) : flights_overlap st' a1 a2 = flights_overlap st a1 a2 := by
  unfold flights_overlap findFlight
  rw [hfl]

theorem create_preserves_ndba {st st' : DBState} {a : FlightAssignment}
    {fid cid : Nat} {so : Option AssignmentStatus} {nts : Option String} {uid : Nat}
    (hinv : no_double_booking_assigned st = true)
    (h : create_assignment st fid cid so nts uid = Except.ok (st', a)) :
    no_double_booking_assigned st' = true := by
  obtain ⟨hfl, -, -, -, hassign, -, hafl, hacrew, -, -, -, havail, -, -⟩ := create_ok_spec h
  have hff : ∃ flight, findFlight st fid = some flight := by
    unfold check_crew_availability at havail
    cases hf : findFlight st fid
    · rw [hf] at havail
      simp at havail
    · exact ⟨_, rfl⟩
  obtain ⟨flight, hf⟩ := hff
  have hempty : (get_conflicting_assignments st cid flight.departure_time
      flight.arrival_time).isEmpty = true := by
    unfold check_crew_availability at havail
    rw [hf] at havail
    exact havail
  have hcf := conflicts_spec hempty
  rw [ndba_iff] at hinv ⊢
  intro a1 h1 a2 h2 hid hcrew h1s h2s
  rw [flights_overlap_congr hfl]
  rw [hassign] at h1 h2
  rcases List.mem_append.mp h1 with h1l | h1r <;> rcases List.mem_append.mp h2 with h2l | h2r
  · exact hinv a1 h1l a2 h2l hid hcrew h1s h2s
  · have ha2 : a2 = a := by simpa using h2r
    subst ha2
    have hc1 : a1.crew_member_id = cid := by rw [hcrew, hacrew]
    cases hfb : findFlight st a1.flight_id with
    | none => simp [flights_overlap, hfb]
    | some fb =>
      have hsql := hcf a1 h1l hc1 h1s fb hfb
      simp [flights_overlap, hfb, hafl, hf]
      exact (sql_overlap_false hsql).1
  · have ha1 : a1 = a := by simpa using h1r
    subst ha1
    have hc2 : a2.crew_member_id = cid := by
      rw [← hcrew]
      exact hacrew
    cases hfb : findFlight st a2.flight_id with
    | none => simp [flights_overlap, hfb, hafl, hf]
    | some fb =>
      have hsql := hcf a2 h2l hc2 h2s fb hfb
      simp [flights_overlap, hfb, hafl, hf]
      exact (sql_overlap_false hsql).2
  · have ha1 : a1 = a := by simpa using h1r
    have ha2 : a2 = a := by simpa using h2r
    rw [ha1, ha2] at hid
    exact absurd rfl hid

theorem loop_preserves_ndba (uid fid : Nat) (pool : List CrewMember)
    (ps : List String) :
    ∀ (needed : Nat) (st : DBState) (acc : List FlightAssignment),
      no_double_booking_assigned st = true →
      no_double_booking_assigned
        (auto_assign_loop uid fid pool ps needed st acc).1 = true := by
  induction ps with
  | nil =>
    intro needed st acc h
    simpa [auto_assign_loop] using h
  | cons p rest ih =>
    intro needed st acc h
    cases needed with
    | zero => simpa [auto_assign_loop] using h
    | succ k =>
      unfold auto_assign_loop
      cases hg : sort_desc (pool.filter fun c => decide (c.position_name = p)) with
      | nil =>
        exact ih (k + 1) st acc h
      | cons c t =>
        dsimp only
        cases hcr : create_assignment st fid c.id (some AssignmentStatus.ASSIGNED)
            (some ("Автоматично призначено (" ++ p ++ ")")) uid with
        | error e => exact h
        | ok pr =>
          obtain ⟨st1, a⟩ := pr
          exact ih k st1 (acc ++ [a]) (create_preserves_ndba h hcr)

theorem pool_subset_crew {st : DBState} {fid : Nat} {pool : List CrewMember}
    (h : get_available_crew_for_flight st fid = Except.ok pool) :
    ∀ c ∈ pool, c ∈ st.crew := by
  intro c hc
  unfold get_available_crew_for_flight at h
  cases hf : findFlight st fid <;> rw [hf] at h
  · exact absurd h (by simp)
  · simp only [Except.ok.injEq] at h
    rw [← h] at hc
    have hc2 := List.mem_filter.mp hc
    unfold find_available_for_flight get_available_crew at hc2
    exact (List.mem_filter.mp hc2.1).1

theorem auto_preserves_ndba (st : DBState) (fid uid : Nat)
    (h : no_double_booking_assigned st = true) :
    no_double_booking_assigned (auto_assign_crew st fid uid).1 = true := by
  unfold auto_assign_crew
  cases hf : findFlight st fid with
  | none => exact h
  | some flight =>
    dsimp only
    split
    · exact h
    · cases hav : get_available_crew_for_flight st fid with
      | error e => exact h
      | ok pool =>
        cases pool with
        | nil => exact h
        | cons c cs => exact loop_preserves_ndba uid fid (c :: cs) priority_positions _ st [] h

theorem loop_creates (uid fid : Nat) (pool : List CrewMember) (ps : List String) :
    ∀ (needed : Nat) (st : DBState) (acc : List FlightAssignment),
      ps.Pairwise (fun p q => p ≠ q) →
      ∃ (new_as : List FlightAssignment) (cs : List CrewMember),
        (auto_assign_loop uid fid pool ps needed st acc).1.assignments
          = st.assignments ++ new_as ∧
        new_as.length ≤ ps.length ∧
        new_as.map (fun x => x.crew_member_id) = cs.map (fun c => c.id) ∧
        (∀ c ∈ cs, c ∈ pool) ∧
        (∀ c ∈ cs, c.position_name ∈ ps) ∧
        cs.Pairwise (fun c1 c2 => c1.position_name ≠ c2.position_name) := by
  induction ps with
  | nil =>
    intro needed st acc hp
    exact ⟨[], [], by simp [auto_assign_loop], by simp, by simp, by simp, by simp, by simp⟩
  | cons p rest ih =>
    intro needed st acc hp
    rw [List.pairwise_cons] at hp
    obtain ⟨hpr, hrest⟩ := hp
    cases needed with
    | zero =>
      exact ⟨[], [], by simp [auto_assign_loop], by simp, by simp, by simp, by simp, by simp⟩
    | succ k =>
      unfold auto_assign_loop
      cases hg : sort_desc (pool.filter fun c => decide (c.position_name = p)) with
      | nil =>
        obtain ⟨new_as, cs, h1, h2, h3, h4, h5, h6⟩ := ih (k + 1) st acc hrest
        exact ⟨new_as, cs, h1, Nat.le_succ_of_le h2, h3, h4,
          fun c hc => List.mem_cons_of_mem p (h5 c hc), h6⟩
      | cons c t =>
        dsimp only
        cases hcr : create_assignment st fid c.id (some AssignmentStatus.ASSIGNED)
            (some ("Автоматично призначено (" ++ p ++ ")")) uid with
        | error e =>
          exact ⟨[], [], by simp, by simp, by simp, by simp, by simp, by simp⟩
        | ok pr =>
          obtain ⟨st1, a⟩ := pr
          obtain ⟨new_as, cs, h1, h2, h3, h4, h5, h6⟩ := ih k st1 (acc ++ [a]) hrest
          obtain ⟨-, -, -, -, hassign, -, -, hacrew, -, -, -, -, -, -⟩ := create_ok_spec hcr
          have hcmem : c ∈ pool.filter fun x => decide (x.position_name = p) := by
            have hcs : c ∈ sort_desc (pool.filter fun x => decide (x.position_name = p)) := by
              rw [hg]
              exact List.mem_cons_self c t
            exact mem_sort_desc.mp hcs
          have hcpool : c ∈ pool := (List.mem_filter.mp hcmem).1
          have hcpos : c.position_name = p := by
            have := (List.mem_filter.mp hcmem).2
            simpa using this
          refine ⟨a :: new_as, c :: cs, ?_, ?_, ?_, ?_, ?_, ?_⟩
          · rw [h1, hassign, List.append_assoc]
            rfl
          · simpa using Nat.succ_le_succ h2
          · simp [h3, hacrew]
          · intro x hx
            rcases List.mem_cons.mp hx with rfl | hx'
            · exact hcpool
            · exact h4 x hx'
          · intro x hx
            rcases List.mem_cons.mp hx with rfl | hx'
            · rw [hcpos]
              exact List.mem_cons_self p rest
            · exact List.mem_cons_of_mem p (h5 x hx')
          · rw [List.pairwise_cons]
            refine ⟨?_, h6⟩
            intro x hx
            rw [hcpos]
            exact hpr x.position_name (h5 x hx)

theorem pairs_distinct_append {l : List FlightAssignment} {x : FlightAssignment}
    (h : pairs_distinct l = true) (hx : ∀ b ∈ l, same_pair b x = false) :
    pairs_distinct (l ++ [x]) = true := by
  induction l with
  | nil => rfl
  | cons a rest ih =>
    rw [List.cons_append]
    simp only [pairs_distinct] at h ⊢
    rw [Bool.and_eq_true] at h
    obtain ⟨ha, hrest⟩ := h
    rw [Bool.and_eq_true]
    constructor
    · rw [List.all_append, Bool.and_eq_true]
      refine ⟨ha, ?_⟩
      simp only [List.all_cons, List.all_nil, Bool.and_true]
      rw [hx a (List.mem_cons_self a rest)]
      rfl
    · exact ih hrest fun b hb => hx b (List.mem_cons_of_mem a hb)

theorem pairs_distinct_filter {l : List FlightAssignment} (h : pairs_distinct l = true)
    (p : FlightAssignment → Bool)
    (hp : ∀ a b, p a = true → p b = true → same_pair a b = true) :
    (l.filter p).length ≤ 1 := by
  induction l with
  | nil => simp
  | cons a rest ih =>
    unfold pairs_distinct at h
    rw [Bool.and_eq_true, List.all_eq_true] at h
    obtain ⟨ha, hrest⟩ := h
    by_cases hpa : p a = true
    · rw [List.filter_cons_of_pos hpa]
      have hnil : rest.filter p = [] := by
        rw [List.filter_eq_nil_iff]
        intro b hb hpb
        have hsp := hp a b hpa hpb
        have hnb := ha b hb
        rw [Bool.not_eq_true'] at hnb
        rw [hsp] at hnb
        exact absurd hnb (by simp)
      simp [hnil]
    · rw [List.filter_cons_of_neg (by simpa using hpa)]
      exact ih hrest

theorem find?_map_pred {α : Type} (p : α → Bool) (g : α → α) (hp : ∀ x, p (g x) = p x) :
    ∀ l : List α, (l.map g).find? p = (l.find? p).map g := by
  intro l
  induction l with
  | nil => rfl
  | cons x xs ih =>
    simp only [List.map_cons, List.find?]
    rw [hp x]
    cases hx : p x <;> simp [ih]

theorem find_by_id_map (st : DBState) (g : FlightAssignment → FlightAssignment)
    (hid : ∀ x, (g x).id = x.id) (hfl : ∀ x, (g x).flight_id = x.flight_id)
    (hcr : ∀ x, (g x).crew_member_id = x.crew_member_id)
    (hab : ∀ x, (g x).assigned_by = x.assigned_by) (aid : Nat) :
    find_by_id { st with assignments := st.assignments.map g } aid
      = (find_by_id st aid).map g := by
  unfold find_by_id
  exact find?_map_pred
    (fun a => decide (a.id = aid) && (findFlight st a.flight_id).isSome &&
      (findCrew st a.crew_member_id).isSome && st.users.contains a.assigned_by)
    g (by intro x; simp only [hid, hfl, hcr, hab]) st.assignments

theorem find_by_id_update_status (st : DBState) (aid : Nat) (s : AssignmentStatus) :
    find_by_id (update_assignment_status st aid s) aid
      = (find_by_id st aid).map
          fun a => if decide (a.id = aid) then { a with status := s } else a := by
  unfold update_assignment_status
  exact find_by_id_map st _ (by intro x; split <;> rfl) (by intro x; split <;> rfl)
    (by intro x; split <;> rfl) (by intro x; split <;> rfl) aid

theorem find_by_id_update_notes (st : DBState) (aid : Nat) (r : String) :
    find_by_id (update_notes st aid r) aid
      = (find_by_id st aid).map
          fun a => if decide (a.id = aid) then { a with notes := some r } else a := by
  unfold update_notes
  exact find_by_id_map st _ (by intro x; split <;> rfl) (by intro x; split <;> rfl)
    (by intro x; split <;> rfl) (by intro x; split <;> rfl) aid

theorem find_by_id_some_id {st : DBState} {aid : Nat} {a : FlightAssignment}
    (h : find_by_id st aid = some a) : a.id = aid := by
  unfold find_by_id at h
  have hp := List.find?_some h
  simp only [Bool.and_eq_true, decide_eq_true_eq] at hp
  exact hp.1.1.1

theorem cancel_then_cancel (st : DBState) (aid : Nat) (r1 r2 : Option String)
    (h : (cancel_assignment st aid r1).2 = Except.ok true) :
    (cancel_assignment (cancel_assignment st aid r1).1 aid r2).2
      = Except.error ServiceError.alreadyCancelled := by
  cases hfind : find_by_id st aid with
  | none =>
    unfold cancel_assignment at h
    rw [hfind] at h
    simp at h
  | some a =>
    have haid : a.id = aid := find_by_id_some_id hfind
    by_cases hcanc : a.status = AssignmentStatus.CANCELLED
    · unfold cancel_assignment at h
      rw [hfind] at h
      simp [hcanc] at h
    · cases r1 with
      | none =>
        have hres : cancel_assignment st aid none
            = (update_assignment_status st aid AssignmentStatus.CANCELLED, Except.ok true) := by
          unfold cancel_assignment
          rw [hfind]
          simp [hcanc]
        rw [hres]
        unfold cancel_assignment
        rw [find_by_id_update_status, hfind]
        simp [haid]
      | some r =>
        have hres : cancel_assignment st aid (some r)
            = (update_notes (update_assignment_status st aid AssignmentStatus.CANCELLED) aid r,
               Except.ok true) := by
          unfold cancel_assignment
          rw [hfind]
          simp [hcanc]
        rw [hres]
        unfold cancel_assignment
        rw [find_by_id_update_notes, find_by_id_update_status, hfind]
        simp [haid]

/-- Claim C1, counterexample: the no-double-booking invariant over all
non-CANCELLED assignments is not preserved by create_assignment, because the
conflict check looks only at ASSIGNED assignments.  In exC1 crew member 1
holds a CONFIRMED assignment on flight 1 (window 0-10); creating an
assignment on the overlapping flight 2 (window 5-15) succeeds and the
resulting state violates the invariant. -/
theorem C1_counterexample :
    no_double_booking exC1 = true ∧
    (find_available_for_flight exC1 5 15).map (fun c => c.id) = [1] ∧
    is_ok (create_assignment exC1 2 1 none none 9) = true ∧
    no_double_booking (result_db (create_assignment exC1 2 1 none none 9) exC1) = false :=
  ⟨by decide, by decide, by decide, by decide⟩

/-- Claim C1, amended: the conflict check of the source considers only
ASSIGNED assignments, so the invariant the code preserves is no double
booking restricted to ASSIGNED assignments; both create_assignment and
auto_assign_crew preserve that restricted invariant. -/
theorem C1_amended :
    (∀ st fid cid so nts uid st' a,
      no_double_booking_assigned st = true →
      create_assignment st fid cid so nts uid = Except.ok (st', a) →
      no_double_booking_assigned st' = true) ∧
    (∀ st fid uid,
      no_double_booking_assigned st = true →
      no_double_booking_assigned (auto_assign_crew st fid uid).1 = true) :=
  ⟨fun _ _ _ _ _ _ _ _ hinv h => create_preserves_ndba hinv h,
   fun st fid uid h => auto_preserves_ndba st fid uid h⟩

/-- Claim C1, witness: the amended preservation theorem applied to the
concrete state exC1w and the concrete create call that produces exC1w'. -/
theorem C1_witness :
    no_double_booking_assigned exC1w = true ∧
    no_double_booking_assigned exC1w' = true :=
  ⟨by decide, C1_amended.1 exC1w 1 1 none none 9 exC1w' exC1a (by decide) (by decide)⟩

/-- Claim C2, counterexample: the overlap test of the source is non-strict,
so a flight that ends exactly when another begins does conflict: flight
(10, 12) against window (12, 14) is reported as a conflict by
Flight.is_time_conflict even though the specification's strict predicate
rejects it, and the crew member assigned to flight 1 is excluded from the
eligibility pool for the touching window. -/
theorem C2_counterexample :
    Flight.is_time_conflict ⟨1, 10, 12, 4, FlightStatus.SCHEDULED⟩ 12 14 = true ∧
    spec_overlaps 10 12 12 14 = false ∧
    find_available_for_flight exC2 12 14 = [] :=
  ⟨by decide, by decide, by decide⟩

/-- Claim C2, amended: for well-formed windows the three-clause test of
Flight.is_time_conflict is the closed-interval overlap test (non-strict on
both bounds), so touching flights do conflict and the touching crew member
is not eligible. -/
theorem C2_amended (f : Flight) (d r : Int)
    (hf : f.departure_time ≤ f.arrival_time) (hw : d ≤ r) :
    Flight.is_time_conflict f d r = true ↔
      (f.departure_time ≤ r ∧ d ≤ f.arrival_time) := by
  simp only [Flight.is_time_conflict, Bool.or_eq_true, Bool.and_eq_true, decide_eq_true_eq]
  omega

/-- Claim C2, witness: the amended equivalence applied to the touching
windows (10, 12) and (12, 14). -/
theorem C2_witness :
    (10 : Int) ≤ 12 ∧ (12 : Int) ≤ 14 ∧
    (Flight.is_time_conflict ⟨1, 10, 12, 4, FlightStatus.SCHEDULED⟩ 12 14 = true ↔
      ((10 : Int) ≤ 14 ∧ (12 : Int) ≤ 12)) :=
  ⟨by decide, by decide,
   C2_amended ⟨1, 10, 12, 4, FlightStatus.SCHEDULED⟩ 12 14 (by decide) (by decide)⟩

/-- Claim C3, counterexample: re-assignment after cancellation does not
succeed: the unique constraint of flight_assignments is on the bare
(crew_member_id, flight_id) pair, so with a CANCELLED row for the pair in
exC3 the insert fails with a database error instead of creating a new
record. -/
theorem C3_counterexample :
    (∃ b ∈ exC3.assignments, b.flight_id = 1 ∧ b.crew_member_id = 1 ∧
      b.status = AssignmentStatus.CANCELLED) ∧
    create_assignment exC3 1 1 none none 9 = Except.error ServiceError.databaseError :=
  ⟨by decide, by decide⟩

/-- Claim C3, amended: the unconditional unique constraint keeps at most one
assignment row per (flight, crew) pair, so the non-CANCELLED count per pair
stays at most one and create_assignment preserves pair distinctness; but a
create for a pair that already has a row, even a CANCELLED one, is rejected
rather than inserting a new record (the cancelled row itself is never
mutated). -/
theorem C3_amended :
    ∀ st fid cid so nts uid,
      (∀ st' a, pairs_distinct st.assignments = true →
        create_assignment st fid cid so nts uid = Except.ok (st', a) →
        pairs_distinct st'.assignments = true ∧
          ∀ f c, noncancelled_count st' f c ≤ 1) ∧
      ((∃ b ∈ st.assignments, b.flight_id = fid ∧ b.crew_member_id = cid ∧
          b.status = AssignmentStatus.CANCELLED) →
        is_ok (create_assignment st fid cid so nts uid) = false) := by
  intro st fid cid so nts uid
  constructor
  · intro st' a hdist h
    obtain ⟨-, -, -, -, hassign, -, hafl, hacrew, -, -, -, -, hdup, -⟩ := create_ok_spec h
    have hdist' : pairs_distinct st'.assignments = true := by
      rw [hassign]
      apply pairs_distinct_append hdist
      intro b hb
      have hnb := hdup b hb
      unfold same_pair
      rw [hafl, hacrew]
      by_cases h1 : b.flight_id = fid
      · by_cases h2 : b.crew_member_id = cid
        · exact absurd ⟨h2, h1⟩ hnb
        · simp [h2]
      · simp [h1]
    refine ⟨hdist', ?_⟩
    intro f c
    unfold noncancelled_count
    apply pairs_distinct_filter hdist'
    intro x y hx hy
    simp only [Bool.and_eq_true, decide_eq_true_eq] at hx hy
    unfold same_pair
    simp [hx.1.1, hy.1.1, hx.1.2, hy.1.2]
  · intro hex
    obtain ⟨b, hb, hbf, hbc, -⟩ := hex
    cases hcr : create_assignment st fid cid so nts uid with
    | error e => rfl
    | ok pr =>
      obtain ⟨st', a⟩ := pr
      obtain ⟨-, -, -, -, -, -, -, -, -, -, -, -, hdup, -⟩ := create_ok_spec hcr
      exact absurd ⟨hbc, hbf⟩ (hdup b hb)

/-- Claim C3, witness: the amended theorem applied to the concrete state
exC1w and the concrete create call that produces exC1w'. -/
theorem C3_witness :
    pairs_distinct exC1w.assignments = true ∧
    pairs_distinct exC1w'.assignments = true ∧
    noncancelled_count exC1w' 1 1 ≤ 1 :=
  ⟨by decide,
   ((C3_amended exC1w 1 1 none none 9).1 exC1w' exC1a (by decide) (by decide)).1,
   ((C3_amended exC1w 1 1 none none 9).1 exC1w' exC1a (by decide) (by decide)).2 1 1⟩

/-- Claim C4, counterexample: confirming a CANCELLED assignment does not
fail: the model's confirm_assignment sets CONFIRMED with no guard, so the
repository confirm on the cancelled assignment 1 of exC4 returns the row
with status CONFIRMED instead of an InvalidTransition error. -/
theorem C4_counterexample :
    get_by_id exC4 1 = some ⟨1, 1, 1, 9, AssignmentStatus.CANCELLED, none⟩ ∧
    (repo_confirm_assignment exC4 1).2
      = some ⟨1, 1, 1, 9, AssignmentStatus.CONFIRMED, none⟩ :=
  ⟨by decide, by decide⟩

/-- Claim C4, amended: only the cancel path is guarded: cancelling an
assignment twice fails with the already-cancelled error on the second call,
while the confirm transition is unguarded and sets CONFIRMED from any
status, including CANCELLED. -/
theorem C4_amended :
    (∀ st aid r1 r2,
      (cancel_assignment st aid r1).2 = Except.ok true →
      (cancel_assignment (cancel_assignment st aid r1).1 aid r2).2
        = Except.error ServiceError.alreadyCancelled) ∧
    (∀ a nts, (FlightAssignment.confirm_assignment a nts).status
        = AssignmentStatus.CONFIRMED) := by
  constructor
  · exact fun st aid r1 r2 h => cancel_then_cancel st aid r1 r2 h
  · intro a nts
    cases nts <;> rfl

/-- Claim C4, witness: the amended double-cancel guard applied to the
cancellable assignment 1 of exC4w. -/
theorem C4_witness :
    (cancel_assignment exC4w 1 none).2 = Except.ok true ∧
    (cancel_assignment (cancel_assignment exC4w 1 none).1 1 none).2
      = Except.error ServiceError.alreadyCancelled :=
  ⟨by decide, C4_amended.1 exC4w 1 none none (by decide)⟩

/-- Claim C5, counterexample: create_assignment never inspects the flight
status, so an assignment on the CANCELLED flight of exC5 is created instead
of failing with FlightNotAssignable. -/
theorem C5_counterexample :
    findFlight exC5 1 = some ⟨1, 0, 10, 4, FlightStatus.CANCELLED⟩ ∧
    is_ok (create_assignment exC5 1 1 none none 9) = true :=
  ⟨by decide, by decide⟩

/-- Claim C5, amended: create_assignment checks, in order: flight existence
(with no restriction on the flight status, so CANCELLED and COMPLETED
flights are assignable), crew existence, the availability flag, the schedule
conflict check, and the crew cap; a duplicate (flight, crew) pair is only
rejected at insert time by the unique constraint, surfacing as a database
error; when every check passes the row is inserted with status ASSIGNED
unless the caller supplied one. -/
theorem C5_amended :
    ∀ st fid cid so nts uid,
      (findFlight st fid = none →
        create_assignment st fid cid so nts uid = Except.error ServiceError.flightNotFound) ∧
      (∀ flight, findFlight st fid = some flight →
        (findCrew st cid = none →
          create_assignment st fid cid so nts uid = Except.error ServiceError.crewNotFound) ∧
        (∀ crew, findCrew st cid = some crew →
          (crew.is_available = false →
            create_assignment st fid cid so nts uid
              = Except.error ServiceError.crewUnavailable) ∧
          (crew.is_available = true →
            check_crew_availability st cid fid = false →
            create_assignment st fid cid so nts uid
              = Except.error ServiceError.scheduleConflict) ∧
          (crew.is_available = true →
            check_crew_availability st cid fid = true →
            (find_by_flight_id st fid).length ≥ flight.crew_required * 2 →
            create_assignment st fid cid so nts uid
              = Except.error ServiceError.crewLimitExceeded) ∧
          (crew.is_available = true →
            check_crew_availability st cid fid = true →
            (find_by_flight_id st fid).length < flight.crew_required * 2 →
            (∃ b ∈ st.assignments, b.crew_member_id = cid ∧ b.flight_id = fid) →
            create_assignment st fid cid so nts uid
              = Except.error ServiceError.databaseError) ∧
          (crew.is_available = true →
            check_crew_availability st cid fid = true →
            (find_by_flight_id st fid).length < flight.crew_required * 2 →
            (∀ b ∈ st.assignments, ¬(b.crew_member_id = cid ∧ b.flight_id = fid)) →
            st.users.contains uid = true →
            create_assignment st fid cid so nts uid
              = Except.ok
                  ({ st with
                      assignments := st.assignments ++
                        [⟨st.next_assignment_id, fid, cid, uid,
                          so.getD AssignmentStatus.ASSIGNED, nts⟩],
                      next_assignment_id := st.next_assignment_id + 1 },
                    ⟨st.next_assignment_id, fid, cid, uid,
                      so.getD AssignmentStatus.ASSIGNED, nts⟩)))) := by
  intro st fid cid so nts uid
  refine ⟨?_, ?_⟩
  · intro hf
    unfold create_assignment create_assignment_io
    rw [hf]
  · intro flight hf
    refine ⟨?_, ?_⟩
    · intro hc
      unfold create_assignment create_assignment_io
      rw [hf, hc]
    · intro crew hc
      refine ⟨?_, ?_, ?_, ?_, ?_⟩
      · intro hav
        unfold create_assignment create_assignment_io
        rw [hf, hc]
        simp [hav]
      · intro hav hconf
        unfold create_assignment create_assignment_io
        rw [hf, hc]
        simp [hav, hconf, check_schedule_conflicts]
      · intro hav hconf hcap
        unfold create_assignment create_assignment_io
        rw [hf, hc]
        simp [hav, hconf, check_schedule_conflicts, decide_eq_true hcap]
      · intro hav hconf hcap hex
        obtain ⟨b, hb, hbc, hbf⟩ := hex
        have hany : (st.assignments.any fun a =>
            decide (a.crew_member_id = cid) && decide (a.flight_id = fid)) = true := by
          rw [List.any_eq_true]
          exact ⟨b, hb, by simp [hbc, hbf]⟩
        unfold create_assignment create_assignment_io repo_create_assignment
        rw [hf, hc]
        simp [hav, hconf, check_schedule_conflicts, hany,
          decide_eq_false (by omega : ¬((find_by_flight_id st fid).length ≥
            flight.crew_required * 2))]
      · intro hav hconf hcap hdup hcont
        have hany : (st.assignments.any fun a =>
            decide (a.crew_member_id = cid) && decide (a.flight_id = fid)) = false := by
          rw [Bool.eq_false_iff]
          rw [ne_eq, List.any_eq_true]
          rintro ⟨b, hb, hpb⟩
          simp only [Bool.and_eq_true, decide_eq_true_eq] at hpb
          exact hdup b hb ⟨hpb.1, hpb.2⟩
        unfold create_assignment create_assignment_io repo_create_assignment
        rw [hf, hc]
        simp [hav, hconf, check_schedule_conflicts, hany, hcont,
          decide_eq_false (by omega : ¬((find_by_flight_id st fid).length ≥
            flight.crew_required * 2))]
        simpa using hcont

/-- Claim C5, witness: the first precondition applied to the empty state,
where the flight lookup fails. -/
theorem C5_witness :
    findFlight exEmpty 1 = none ∧
    create_assignment exEmpty 1 1 none none 9 = Except.error ServiceError.flightNotFound :=
  ⟨by decide, (C5_amended exEmpty 1 1 none none 9).1 (by decide)⟩

/-- Claim C6, counterexample: the ranking is not certification tier first:
in exC6 the CAPTAIN with 5 years (crew 1) competes with a SENIOR with 10
years (crew 2); auto_assign_crew assigns crew 2, because the sort key of the
source orders by experience_years first. -/
theorem C6_counterexample :
    (findCrew exC6 1).map (fun c => c.certification_level)
      = some CertificationLevel.CAPTAIN ∧
    (findCrew exC6 2).map (fun c => c.certification_level)
      = some CertificationLevel.SENIOR ∧
    (findCrew exC6 1).map (fun c => c.experience_years) = some 5 ∧
    (findCrew exC6 2).map (fun c => c.experience_years) = some 10 ∧
    (ok_list (auto_assign_crew exC6 1 9).2).map (fun a => a.crew_member_id) = [2] :=
  ⟨by decide, by decide, by decide, by decide, by decide⟩

/-- Claim C6, amended: the ranking used by auto_assign_crew sorts the
candidate pool of a position by the key (experience_years, is-CAPTAIN)
descending — experience dominates and JUNIOR and SENIOR rank equally — and
the assigned candidate is the head of that sort: the sorted list is a
permutation of the pool and every pool member's key is bounded by the
head's key. -/
theorem C6_amended :
    ∀ l : List CrewMember,
      (sort_desc l).Perm l ∧
      ∀ h t, sort_desc l = h :: t → ∀ c ∈ l, key_le (py_key c) (py_key h) = true := by
  intro l
  exact ⟨sort_desc_perm l, fun h t hs c hc => sort_desc_head_max hs hc⟩

/-- Claim C6, witness: the amended ranking theorem applied to the concrete
pool of exC6, whose sorted head is the more-experienced SENIOR. -/
theorem C6_witness :
    sort_desc exC6pool
      = [⟨2, "PILOT", 10, CertificationLevel.SENIOR, true⟩,
         ⟨1, "PILOT", 5, CertificationLevel.CAPTAIN, true⟩] ∧
    key_le (py_key ⟨1, "PILOT", 5, CertificationLevel.CAPTAIN, true⟩)
      (py_key ⟨2, "PILOT", 10, CertificationLevel.SENIOR, true⟩) = true :=
  ⟨by decide,
   (C6_amended exC6pool).2 ⟨2, "PILOT", 10, CertificationLevel.SENIOR, true⟩
     [⟨1, "PILOT", 5, CertificationLevel.CAPTAIN, true⟩] (by decide)
     ⟨1, "PILOT", 5, CertificationLevel.CAPTAIN, true⟩ (by decide)⟩

/-- Claim C7, counterexample: when no eligible candidate exists at all,
auto_assign_crew does not return the zero assignments it created: it raises
the no-available-crew error (exC7a has one crew member, flagged
unavailable). -/
theorem C7_counterexample :
    find_available_for_flight exC7a 0 10 = [] ∧
    (auto_assign_crew exC7a 1 9).2 = Except.error ServiceError.noAvailableCrew :=
  ⟨by decide, by decide⟩

/-- Claim C7, amended: when the eligibility pool is non-empty,
auto_assign_crew fills what it can and returns the created assignments
without failing the flight: on exC7b (flight needs three crew, one eligible
PILOT, no FLIGHT_ATTENDANT) it returns exactly one assignment, for the
pilot; but with an empty pool it raises instead of returning an empty
list. -/
theorem C7_amended :
    is_ok (auto_assign_crew exC7b 1 9).2 = true ∧
    (ok_list (auto_assign_crew exC7b 1 9).2).length = 1 ∧
    (ok_list (auto_assign_crew exC7b 1 9).2).map (fun a => a.crew_member_id) = [1] :=
  ⟨by decide, by decide, by decide⟩

/-- Claim C8, counterexample: a failing storage read during the conflict
check is not surfaced as a storage error: on the fully eligible state exC8
(which has no real conflict) the create call reports the ordinary
schedule-conflict eligibility error. -/
theorem C8_counterexample :
    check_crew_availability exC8 1 1 = true ∧
    create_assignment_io true exC8 1 1 none none 9
      = Except.error ServiceError.scheduleConflict :=
  ⟨by decide, by decide⟩

/-- Claim C8, amended: _check_schedule_conflicts swallows the storage
failure and answers False, so whenever the flight and the crew member
resolve and the availability flag is set, a failing repository read makes
create_assignment fail with the schedule-conflict eligibility error; no
storage error reaches the caller. -/
theorem C8_amended :
    check_schedule_conflicts RepoRead.failure = false ∧
    ∀ st fid cid so nts uid flight crew,
      findFlight st fid = some flight → findCrew st cid = some crew →
      crew.is_available = true →
      create_assignment_io true st fid cid so nts uid
        = Except.error ServiceError.scheduleConflict := by
  refine ⟨rfl, ?_⟩
  intro st fid cid so nts uid flight crew hf hc hav
  unfold create_assignment_io
  rw [hf, hc]
  simp [hav, check_schedule_conflicts]

/-- Claim C8, witness: the amended theorem applied to the concrete eligible
state exC8 with a failing read. -/
theorem C8_witness :
    findFlight exC8 1 = some ⟨1, 0, 10, 4, FlightStatus.SCHEDULED⟩ ∧
    findCrew exC8 1 = some ⟨1, "PILOT", 3, CertificationLevel.JUNIOR, true⟩ ∧
    create_assignment_io true exC8 1 1 none none 9
      = Except.error ServiceError.scheduleConflict :=
  ⟨by decide, by decide,
   C8_amended.2 exC8 1 1 none none 9 ⟨1, 0, 10, 4, FlightStatus.SCHEDULED⟩
     ⟨1, "PILOT", 3, CertificationLevel.JUNIOR, true⟩ (by decide) (by decide) (by decide)⟩

/-- Claim C9, counterexample: the cap check counts only ASSIGNED rows, not
all recorded assignments: exC9's flight (crew_required 1) carries two
CANCELLED rows, which is at least twice the requirement, yet the create
call succeeds. -/
theorem C9_counterexample :
    (exC9.assignments.filter fun a => decide (a.flight_id = 1)).length = 2 ∧
    (findFlight exC9 1).map (fun f => f.crew_required) = some 1 ∧
    is_ok (create_assignment exC9 1 1 none none 9) = true :=
  ⟨by decide, by decide, by decide⟩

/-- Claim C9, amended: the cap is over the ASSIGNED rows returned by
find_by_flight_id: whenever that count reaches twice crew_required,
create_assignment fails (with some error) and no insert happens. -/
theorem C9_amended :
    ∀ st fid cid so nts uid flight,
      findFlight st fid = some flight →
      (find_by_flight_id st fid).length ≥ flight.crew_required * 2 →
      is_ok (create_assignment st fid cid so nts uid) = false := by
  intro st fid cid so nts uid flight hf hcap
  cases hcr : create_assignment st fid cid so nts uid with
  | error e => rfl
  | ok pr =>
    obtain ⟨st', a⟩ := pr
    obtain ⟨-, -, -, -, -, -, -, -, -, -, -, -, -, hex⟩ := create_ok_spec hcr
    obtain ⟨flight2, hf2, hlt⟩ := hex
    rw [hf] at hf2
    injection hf2 with hf2
    rw [← hf2] at hlt
    omega

/-- Claim C9, witness: the amended cap theorem applied to exC9w, whose
flight requires one crew member and already has two ASSIGNED rows. -/
theorem C9_witness :
    findFlight exC9w 1 = some ⟨1, 0, 100, 1, FlightStatus.SCHEDULED⟩ ∧
    (find_by_flight_id exC9w 1).length ≥ 1 * 2 ∧
    is_ok (create_assignment exC9w 1 1 none none 9) = false :=
  ⟨by decide, by decide,
   C9_amended exC9w 1 1 none none 9 ⟨1, 0, 100, 1, FlightStatus.SCHEDULED⟩
     (by decide) (by decide)⟩

/-- Claim C10, confirmed: each auto_assign_crew call appends at most one new
assignment per priority position and hence at most five in total, the new
assignments' crew members come from the crew table, and their positions are
pairwise distinct — fully staffing several crew of one position needs
repeated calls. -/
theorem C10_confirmed :
    ∀ st fid uid,
      ∃ (new_as : List FlightAssignment) (cs : List CrewMember),
        (auto_assign_crew st fid uid).1.assignments = st.assignments ++ new_as ∧
        new_as.length ≤ 5 ∧
        new_as.map (fun x => x.crew_member_id) = cs.map (fun c => c.id) ∧
        (∀ c ∈ cs, c ∈ st.crew) ∧
        cs.Pairwise (fun c1 c2 => c1.position_name ≠ c2.position_name) := by
  intro st fid uid
  unfold auto_assign_crew
  cases hf : findFlight st fid with
  | none => exact ⟨[], [], by simp, by simp, by simp, by simp, by simp⟩
  | some flight =>
    dsimp only
    split
    · exact ⟨[], [], by simp, by simp, by simp, by simp, by simp⟩
    · cases hav : get_available_crew_for_flight st fid with
      | error e => exact ⟨[], [], by simp, by simp, by simp, by simp, by simp⟩
      | ok pool =>
        cases pool with
        | nil => exact ⟨[], [], by simp, by simp, by simp, by simp, by simp⟩
        | cons c0 cs0 =>
          obtain ⟨new_as, cs, h1, h2, h3, h4, h5, h6⟩ :=
            loop_creates uid fid (c0 :: cs0) priority_positions
              (flight.crew_required -
                ((find_by_flight_id st fid).filter fun a =>
                  decide (a.status = AssignmentStatus.ASSIGNED) ||
                  decide (a.status = AssignmentStatus.CONFIRMED)).length)
              st [] (by decide)
          refine ⟨new_as, cs, h1, by simpa using h2, h3, ?_, h6⟩
          intro c hc
          exact pool_subset_crew hav c (h4 c hc)

end CrewFlight
